import Mathlib

/-!
# Verification of the clinical risk-scoring engine

Shallow embedding of `backend/clinical_rules_engine.py` and
`backend/risk_assessment.py`: dynamic (JSON-like) values become the
`Value` type, Python `try/except`-guarded parses become `Option`-valued
parse functions, and the one place a `TypeError` can escape an evaluator
(comparing a string age with an integer) becomes an `Except`-valued
evaluator.  Python floats are modelled as rationals.
-/

/-- A dynamically typed scalar value, as found in the JSON-like
patient-data mappings (Python `int`, `str`, `float`). -/
inductive Value where
  | vInt : Int → Value
  | vStr : String → Value
  | vFloat : Rat → Value
deriving DecidableEq, Repr

/-- Digit-string to number; `none` when empty or a non-digit occurs
(models the failure of Python `int`). -/
def digitsToNat (cs : List Char) : Option Nat :=
  if cs.isEmpty then none
  else cs.foldl
    (fun acc c =>
      match acc with
      | none => none
      | some n => if c.isDigit then some (n * 10 + (c.toNat - 48)) else none)
    (some 0)

/-- Python `int(str)`: strip whitespace, optional sign, decimal digits. -/
def parseIntStr (s : String) : Option Int :=
  match s.trim.data with
  | '-' :: rest => (digitsToNat rest).map (fun n => -(n : Int))
  | '+' :: rest => (digitsToNat rest).map (fun n => (n : Int))
  | cs => (digitsToNat cs).map (fun n => (n : Int))

/-- Unsigned decimal with an optional point, e.g. `38.5`, `5.`, `.5`. -/
def parseFloatCore (cs : List Char) : Option Rat :=
  match (String.mk cs).splitOn "." with
  | [w] => (digitsToNat w.data).map (fun n => (n : Rat))
  | [w, f] =>
      if w.isEmpty && f.isEmpty then none
      else
        let wn := if w.isEmpty then some 0 else digitsToNat w.data
        let fn := if f.isEmpty then some 0 else digitsToNat f.data
        match wn, fn with
        | some a, some b => some ((a : Rat) + (b : Rat) / ((10 : Rat) ^ f.length))
        | _, _ => none
  | _ => none

/-- Python `float(str)`: strip whitespace, optional sign, decimal literal. -/
def parseFloatStr (s : String) : Option Rat :=
  match s.trim.data with
  | '-' :: rest => (parseFloatCore rest).map (fun q => -q)
  | '+' :: rest => parseFloatCore rest
  | cs => parseFloatCore cs

/-- Python `float` truncates toward zero when applied through `int`. -/
def ratTrunc (q : Rat) : Int := q.num.tdiv q.den

/-- Python `int(value)` on a dynamic value; `none` models the raised
`ValueError`/`TypeError` that the call sites catch. -/
def pyInt : Value → Option Int
  | Value.vInt n => some n
  | Value.vFloat q => some (ratTrunc q)
  | Value.vStr s => parseIntStr s

/-- Python `float(value)` on a dynamic value. -/
def pyFloat : Value → Option Rat
  | Value.vInt n => some (n : Rat)
  | Value.vFloat q => some q
  | Value.vStr s => parseFloatStr s

/-- Python `str(value)`.  The repr of a float is approximated by the
rational's repr; no theorem below depends on it. -/
def pyStr : Value → String
  | Value.vInt n => toString n
  | Value.vStr s => s
  | Value.vFloat q => toString q

/-- `listStartsWith hay needle`: `needle` is an initial segment of `hay`. -/
def listStartsWith : List Char → List Char → Bool
  | _, [] => true
  | [], _ :: _ => false
  | a :: as, b :: bs => a == b && listStartsWith as bs

/-- `needle` occurs contiguously inside `hay`. -/
def listContainsSub (hay needle : List Char) : Bool :=
  match hay with
  | [] => needle.isEmpty
  | _ :: t => listStartsWith hay needle || listContainsSub t needle

/-- Python's substring test `needle in hay`. -/
def strContains (hay needle : String) : Bool :=
  listContainsSub hay.data needle.data

/-- Python `str.title()` restricted to ASCII letters (enough for the
fixed comorbidity table). -/
def titleChars : Bool → List Char → List Char
  | _, [] => []
  | prevAlpha, c :: cs =>
      let c' := if c.isAlpha then (if prevAlpha then c.toLower else c.toUpper) else c
      c' :: titleChars c.isAlpha cs

/-- Python `str.title()`. -/
def pyTitle (s : String) : String := String.mk (titleChars false s.data)

/-- `RiskLevel` enum from `clinical_rules_engine.py`. -/
inductive RiskLevel where
  | low
  | moderate
  | high
deriving DecidableEq, Repr

/-- The `.value` string of each `RiskLevel` enum member. -/
def RiskLevel.value : RiskLevel → String
  | low => "Low Risk (0-30)"
  | moderate => "Moderate Risk (31-60)"
  | high => "High Risk (61-100)"

/-- The vitals mapping: each recognized key is present (`some`) or
absent (`none`); values are dynamic. -/
structure Vitals where
  bp : Option Value
  spo2 : Option Value
  hr : Option Value
  temp : Option Value
  bmi : Option Value
deriving DecidableEq, Repr

/-- The empty vitals mapping `{}`. -/
def emptyVitals : Vitals := ⟨none, none, none, none, none⟩

/-- The lifestyle mapping with its recognized keys. -/
structure Lifestyle where
  smoking : Option Value
  activity_level : Option Value
  diet_quality : Option Value
  sleep_hours : Option Value
deriving DecidableEq, Repr

/-- The empty lifestyle mapping `{}`. -/
def emptyLifestyle : Lifestyle := ⟨none, none, none, none⟩

/-- The `contributing_factors` dictionary. -/
structure Factors where
  vitals_contribution : Int
  bmi_contribution : Int
  symptoms_contribution : Int
  demographics_contribution : Int
  lifestyle_contribution : Int
deriving DecidableEq, Repr

/-- The `RiskAssessment` dataclass of `risk_assessment.py`. -/
structure RiskAssessment where
  total_score : Int
  risk_level : RiskLevel
  vitals_findings : List String
  bmi_findings : List String
  symptom_findings : List String
  demographic_findings : List String
  lifestyle_findings : List String
  contributing_factors : Factors
  clinical_recommendation : String
  explanation : String
  confidence : String
  requires_immediate_attention : Bool
deriving DecidableEq, Repr

/-- The loosely structured patient-data mapping accepted by
`generate_assessment`; `none` means the key is absent. -/
structure PatientData where
  vitals : Option Vitals
  symptoms : Option (List String)
  age : Option Value
  gender : Option String
  medical_history : Option (List String)
  lifestyle : Option Lifestyle
deriving DecidableEq, Repr

/-- The result envelope of `generate_assessment`: either
`{success: true, assessment, disclaimer}` or
`{success: false, error, disclaimer}`. -/
inductive AssessmentResult where
  | success : RiskAssessment → String → AssessmentResult
  | failure : String → String → AssessmentResult
deriving DecidableEq, Repr

/-- Blood-pressure parse: `map(int, vitals["bp"].split('/'))` unpacked
into exactly two integers; any failure is caught by the caller. -/
def parseBP : Value → Option (Int × Int)
  | Value.vStr s =>
      match s.splitOn "/" with
      | [a, b] =>
          match parseIntStr a, parseIntStr b with
          | some x, some y => some (x, y)
          | _, _ => none
      | _ => none
  | _ => none

/-- Blood-pressure branch of `evaluate_vitals_risk`. -/
def bpScore (ov : Option Value) : Int × List String :=
  match ov with
  | none => (0, [])
  | some v =>
      match parseBP v with
      | none => (0, [])
      | some (systolic, diastolic) =>
          if systolic ≥ 180 ∨ diastolic ≥ 120 then
            (25, ["🔴 CRITICAL: Hypertensive crisis (BP > 180/120)"])
          else if systolic ≥ 160 ∨ diastolic ≥ 100 then
            (15, ["🟠 HIGH: Stage 2 hypertension (BP 160-179/100-109)"])
          else if systolic ≥ 140 ∨ diastolic ≥ 90 then
            (8, ["🟡 MODERATE: Stage 1 hypertension (BP 140-159/90-99)"])
          else if systolic < 90 ∨ diastolic < 60 then
            (12, ["🟡 MODERATE: Hypotension (BP < 90/60)"])
          else (0, [])

/-- Oxygen-saturation branch of `evaluate_vitals_risk`. -/
def spo2Score (ov : Option Value) : Int × List String :=
  match ov with
  | none => (0, [])
  | some v =>
      match pyInt v with
      | none => (0, [])
      | some spo2 =>
          if spo2 < 90 then (20, ["🔴 CRITICAL: Severe hypoxemia (SpO2 < 90%)"])
          else if spo2 < 94 then (12, ["🟠 HIGH: Hypoxemia (SpO2 < 94%)"])
          else if spo2 < 95 then (5, ["🟡 MODERATE: Low oxygen saturation (SpO2 < 95%)"])
          else (0, [])

/-- Heart-rate branch of `evaluate_vitals_risk`. -/
def hrScore (ov : Option Value) : Int × List String :=
  match ov with
  | none => (0, [])
  | some v =>
      match pyInt v with
      | none => (0, [])
      | some hr =>
          if hr > 130 then (10, ["🟠 HIGH: Severe tachycardia (HR > 130)"])
          else if hr > 120 then (6, ["🟡 MODERATE: Tachycardia (HR > 120)"])
          else if hr < 50 then (8, ["🟡 MODERATE: Bradycardia (HR < 50)"])
          else (0, [])

/-- Temperature branch of `evaluate_vitals_risk`. -/
def tempScore (ov : Option Value) : Int × List String :=
  match ov with
  | none => (0, [])
  | some v =>
      match pyFloat v with
      | none => (0, [])
      | some temp =>
          if temp > 39.5 then (8, ["🟠 HIGH: Severe fever (Temp > 39.5°C)"])
          else if temp > 38.5 then (5, ["🟡 MODERATE: Fever (Temp > 38.5°C)"])
          else if temp < 35 then (8, ["🟡 MODERATE: Hypothermia (Temp < 35°C)"])
          else (0, [])

/-- `ClinicalRulesEngine.evaluate_vitals_risk`. -/
def evaluate_vitals_risk (vitals : Vitals) : Int × List String :=
  let r1 := bpScore vitals.bp
  let r2 := spo2Score vitals.spo2
  let r3 := hrScore vitals.hr
  let r4 := tempScore vitals.temp
  (min (r1.1 + r2.1 + r3.1 + r4.1) 45, r1.2 ++ r2.2 ++ r3.2 ++ r4.2)

/-- `ClinicalRulesEngine.evaluate_bmi_risk`. -/
def evaluate_bmi_risk (bmi_val : Value) : Int × List String :=
  match pyFloat bmi_val with
  | none => (0, [])
  | some bmi =>
      if bmi ≥ 40 then (15, ["🔴 CRITICAL: Class III Obesity (BMI >= 40)"])
      else if bmi ≥ 35 then (10, ["🟠 HIGH: Class II Obesity (BMI 35-39.9)"])
      else if bmi ≥ 30 then (6, ["🟡 MODERATE: Obesity (BMI 30-34.9)"])
      else if bmi < 18.5 then (5, ["🟡 MODERATE: Underweight (BMI < 18.5)"])
      else (0, [])

/-- One `any(s in symptoms_lower for s in triggers)` check of
`evaluate_symptoms_risk`. -/
def symptomCheck (sl : List String) (triggers : List String) (score : Int)
    (finding : String) : Int × List String :=
  if triggers.any (fun t => sl.contains t) then (score, [finding]) else (0, [])

/-- `ClinicalRulesEngine.evaluate_symptoms_risk`. -/
def evaluate_symptoms_risk (symptoms : List String) : Int × List String :=
  if symptoms.isEmpty then (0, [])
  else
    let sl := symptoms.map String.toLower
    let c1 := symptomCheck sl ["chest pain", "shortness of breath"] 18
      "🔴 CRITICAL: Potential cardiac event symptoms detected"
    let c2 := symptomCheck sl ["severe headache", "confusion", "altered mental status"] 15
      "🔴 CRITICAL: Possible neurological emergency"
    let c3 := symptomCheck sl ["difficulty breathing", "severe cough"] 12
      "🟠 HIGH: Respiratory distress signs"
    let c4 := symptomCheck sl ["severe pain", "acute pain"] 10
      "🟠 HIGH: Acute pain episode"
    let c5 := symptomCheck sl ["dizziness", "fainting", "syncope"] 10
      "🟠 HIGH: Hemodynamic instability risk"
    let c6 := symptomCheck sl ["persistent vomiting", "vomiting blood"] 8
      "🟡 MODERATE: GI distress with dehydration risk"
    (min (c1.1 + c2.1 + c3.1 + c4.1 + c5.1 + c6.1) 40,
     c1.2 ++ c2.2 ++ c3.2 ++ c4.2 ++ c5.2 ++ c6.2)

/-- Every trigger phrase of the six symptom rules. -/
def symptom_triggers : List String :=
  ["chest pain", "shortness of breath",
   "severe headache", "confusion", "altered mental status",
   "difficulty breathing", "severe cough",
   "severe pain", "acute pain",
   "dizziness", "fainting", "syncope",
   "persistent vomiting", "vomiting blood"]

/-- Python `lifestyle.get(key) == literal`: `False` when the key is
absent or the value is not that string. -/
def optValueEqStr (ov : Option Value) (s : String) : Bool :=
  match ov with
  | some (Value.vStr t) => t == s
  | _ => false

/-- `ClinicalRulesEngine.evaluate_lifestyle_risk`. -/
def evaluate_lifestyle_risk (lifestyle : Lifestyle) : Int × List String :=
  let r1 :=
    if optValueEqStr lifestyle.smoking "Current" then
      (10, ["⚠️ Current Smoker - High cardiovascular/respiratory risk"])
    else if optValueEqStr lifestyle.smoking "Former" then (4, ["Former Smoker"])
    else ((0 : Int), ([] : List String))
  let r2 :=
    if optValueEqStr lifestyle.activity_level "Sedentary" then
      (6, ["⚠️ Sedentary Lifestyle"])
    else ((0 : Int), ([] : List String))
  let r3 :=
    if optValueEqStr lifestyle.diet_quality "Poor" then
      (5, ["⚠️ Poor Diet Quality"])
    else ((0 : Int), ([] : List String))
  let r4 :=
    match pyFloat (lifestyle.sleep_hours.getD (Value.vInt 7)) with
    | none => ((0 : Int), ([] : List String))
    | some sleep =>
        if sleep < 6 then (4, ["⚠️ Sleep Deprivation (<6 hours)"])
        else ((0 : Int), ([] : List String))
  (min (r1.1 + r2.1 + r3.1 + r4.1) 20, r1.2 ++ r2.2 ++ r3.2 ++ r4.2)

/-- The fixed `high_risk_conditions` table, in insertion order. -/
def high_risk_conditions : List (String × Int) :=
  [("diabetes", 6), ("hypertension", 5), ("heart disease", 8), ("cardiac", 8),
   ("copd", 7), ("asthma", 5), ("kidney disease", 7), ("liver disease", 8),
   ("cancer", 6), ("stroke history", 7), ("hiv", 8), ("immunocompromised", 8)]

/-- The comorbidity loop of `evaluate_demographics_risk`: for each
condition of the table (in order), add its weight and a finding when it
occurs as a substring of some lower-cased comorbidity. -/
def evalConditions (cl : List String) : List (String × Int) → Int × List String
  | [] => (0, [])
  | p :: rest =>
      let r := evalConditions cl rest
      if cl.any (fun c => strContains c p.1) then
        (p.2 + r.1, ("⚠️ Chronic condition: " ++ pyTitle p.1) :: r.2)
      else r

/-- The age-band scoring of `evaluate_demographics_risk`.  A string age
raises a `TypeError` at the first comparison (`age >= 75`), modelled by
`Except.error`; integer and float ages compare normally. -/
def ageScore : Value → Except String (Int × List String)
  | Value.vInt a =>
      Except.ok
        (if a ≥ 75 then (8, ["Elderly patient (>75 years) - Higher baseline risk"])
         else if a ≥ 65 then (4, ["Senior patient (65-74 years)"])
         else if a < 18 then (2, ["Pediatric patient - Requires pediatric assessment"])
         else (0, []))
  | Value.vFloat a =>
      Except.ok
        (if a ≥ 75 then (8, ["Elderly patient (>75 years) - Higher baseline risk"])
         else if a ≥ 65 then (4, ["Senior patient (65-74 years)"])
         else if a < 18 then (2, ["Pediatric patient - Requires pediatric assessment"])
         else (0, []))
  | Value.vStr _ =>
      Except.error "'>=' not supported between instances of 'str' and 'int'"

/-- `ClinicalRulesEngine.evaluate_demographics_risk`; `gender` is
accepted but unused, as in the source. -/
def evaluate_demographics_risk (age : Value) (gender : String)
    (comorbidities : List String) : Except String (Int × List String) :=
  match ageScore age with
  | Except.error e => Except.error e
  | Except.ok r0 =>
      let cl := comorbidities.map String.toLower
      let r1 := evalConditions cl high_risk_conditions
      Except.ok (min (r0.1 + r1.1) 30, r0.2 ++ r1.2)

/-- `ClinicalRulesEngine.evaluate_critical_combinations`. -/
def evaluate_critical_combinations (vitals : Vitals) (symptoms : List String) :
    List String :=
  let sl := symptoms.map String.toLower
  let bpAlerts :=
    match vitals.bp with
    | none => []
    | some v =>
        match parseBP v with
        | none => []
        | some (systolic, diastolic) =>
            if systolic > 180 ∨ diastolic > 120 then
              if sl.contains "chest pain" then
                ["🚨 CARDIAC ALERT: Hypertensive crisis with chest pain - IMMEDIATE EVALUATION"]
              else
                ["🚨 EMERGENT: Hypertensive crisis (BP > 180/120)"]
            else []
  let respAlerts :=
    match vitals.spo2, vitals.temp with
    | some v, some w =>
        match pyInt v, pyFloat w with
        | some spo2, some temp =>
            if spo2 < 90 ∧ (temp > 38.0 ∨ sl.contains "cough") then
              ["🚨 INFECTION RISK: Hypoxemia with fever/cough - Possible pneumonia/sepsis"]
            else []
        | _, _ => []
    | _, _ => []
  bpAlerts ++ respAlerts

/-- `ClinicalRulesEngine.calculate_total_risk_score`. -/
def calculate_total_risk_score (vitals_score bmi_score symptoms_score
    demographics_score lifestyle_score : Int) : Int × RiskLevel × Factors :=
  let total_score := min (vitals_score + bmi_score + symptoms_score +
    demographics_score + lifestyle_score) 100
  let level :=
    if total_score ≤ 30 then RiskLevel.low
    else if total_score ≤ 60 then RiskLevel.moderate
    else RiskLevel.high
  (total_score, level,
   { vitals_contribution := vitals_score,
     bmi_contribution := bmi_score,
     symptoms_contribution := symptoms_score,
     demographics_contribution := demographics_score,
     lifestyle_contribution := lifestyle_score })

/-- `ClinicalRulesEngine.get_clinical_recommendation`; the findings
argument is unused, as in the source. -/
def get_clinical_recommendation (risk_level : RiskLevel)
    (findings : List String) : String :=
  match risk_level with
  | RiskLevel.low => "Continue routine monitoring. Schedule regular physician checkup."
  | RiskLevel.moderate => "Schedule a physician consultation within 24-48 hours. Monitor vitals."
  | RiskLevel.high => "Seek immediate medical evaluation. Consider emergency assessment if symptoms worsen."

/-- `RiskScorer._create_explanation`; the score argument is unused, as
in the source. -/
def create_explanation (score : Int) (level : RiskLevel)
    (vitals_findings symptom_findings demographic_findings : List String)
    (age : Value) : String :=
  let part1 := "Based on current patient state (age " ++ pyStr age ++ "),"
  let primary_drivers := vitals_findings.take 2 ++ symptom_findings.take 1
  let part2 :=
    if primary_drivers.isEmpty then
      "vital signs and symptoms are within acceptable ranges."
    else
      "the primary risk drivers are: " ++ String.intercalate ", " primary_drivers ++ "."
  let part3 :=
    match level with
    | RiskLevel.low => "Overall risk profile is low. Routine monitoring is recommended."
    | RiskLevel.moderate => "Overall risk profile is moderate. Close monitoring and timely physician evaluation are warranted."
    | RiskLevel.high => "Overall risk profile is elevated. Prompt clinical assessment is strongly recommended."
  String.intercalate " " [part1, part2, part3]

/-- The success path of `RiskScorer.assess_patient` (steps 1–5 of the
source): the demographics result `demo` is passed in, every other
domain is evaluated here.  `gender` and `comorbidities` feed only the
demographics evaluator, so they do not reappear. -/
def buildAssessment (vitals : Vitals) (symptoms : List String) (age : Value)
    (demo : Int × List String) (lifestyle : Lifestyle) : RiskAssessment :=
  let rv := evaluate_vitals_risk vitals
  let rb := evaluate_bmi_risk (vitals.bmi.getD (Value.vInt 0))
  let rs := evaluate_symptoms_risk symptoms
  let rl := evaluate_lifestyle_risk lifestyle
  let critical_alerts := evaluate_critical_combinations vitals symptoms
  let vitals_findings := critical_alerts ++ rv.2
  let tot := calculate_total_risk_score rv.1 rb.1 rs.1 demo.1 rl.1
  let recommendation := get_clinical_recommendation tot.2.1 (vitals_findings ++ rs.2)
  let explanation := create_explanation tot.1 tot.2.1 vitals_findings rs.2 demo.2 age
  let requires_immediate :=
    (vitals_findings ++ rs.2).any
      (fun finding => strContains finding "CRITICAL" || strContains finding "🔴")
  { total_score := tot.1,
    risk_level := tot.2.1,
    vitals_findings := vitals_findings,
    bmi_findings := rb.2,
    symptom_findings := rs.2,
    demographic_findings := demo.2,
    lifestyle_findings := rl.2,
    contributing_factors := tot.2.2,
    clinical_recommendation := recommendation,
    explanation := explanation,
    confidence := "High",
    requires_immediate_attention := requires_immediate }

/-- `RiskScorer.assess_patient`.  Only the demographics evaluator can
raise (string age compared with an integer); every other evaluator
catches its own parse failures, so the whole assessment is `Except`-ok
exactly when the demographics comparison succeeds. -/
def assess_patient (vitals : Vitals) (symptoms : List String) (age : Value)
    (gender : String) (comorbidities : List String) (lifestyle : Lifestyle) :
    Except String RiskAssessment :=
  match evaluate_demographics_risk age gender comorbidities with
  | Except.error e => Except.error e
  | Except.ok demo =>
      Except.ok (buildAssessment vitals symptoms age demo lifestyle)

/-- `ClinicalDecisionSupport.generate_assessment`: extract with
defaults, assess, and wrap into the success/failure envelope. -/
def generate_assessment (pd : PatientData) : AssessmentResult :=
  match assess_patient (pd.vitals.getD emptyVitals) (pd.symptoms.getD [])
      (pd.age.getD (Value.vInt 50)) (pd.gender.getD "Unknown")
      (pd.medical_history.getD []) (pd.lifestyle.getD emptyLifestyle) with
  | Except.ok a =>
      AssessmentResult.success a "For physician review only. Not for diagnostic use."
  | Except.error e =>
      AssessmentResult.failure e "Assessment failed. Please consult physician directly."

/-! ## Helper lemmas -/

theorem assess_patient_ok_elim (vitals : Vitals) (symptoms : List String)
    (age : Value) (gender : String) (comorbidities : List String)
    (lifestyle : Lifestyle) (a : RiskAssessment)
    (ha : assess_patient vitals symptoms age gender comorbidities lifestyle = Except.ok a) :
    ∃ demo, evaluate_demographics_risk age gender comorbidities = Except.ok demo ∧
      a = buildAssessment vitals symptoms age demo lifestyle := by
  unfold assess_patient at ha
  cases hd : evaluate_demographics_risk age gender comorbidities with
  | error e => rw [hd] at ha; cases ha
  | ok demo =>
      rw [hd] at ha
      injection ha with h
      exact ⟨demo, rfl, h.symm⟩

theorem buildAssessment_total_score (vitals : Vitals) (symptoms : List String)
    (age : Value) (demo : Int × List String) (lifestyle : Lifestyle) :
    (buildAssessment vitals symptoms age demo lifestyle).total_score =
      min ((evaluate_vitals_risk vitals).1 +
        (evaluate_bmi_risk (vitals.bmi.getD (Value.vInt 0))).1 +
        (evaluate_symptoms_risk symptoms).1 + demo.1 +
        (evaluate_lifestyle_risk lifestyle).1) 100 := rfl

theorem buildAssessment_bmi_contribution (vitals : Vitals) (symptoms : List String)
    (age : Value) (demo : Int × List String) (lifestyle : Lifestyle) :
    (buildAssessment vitals symptoms age demo lifestyle).contributing_factors.bmi_contribution =
      (evaluate_bmi_risk (vitals.bmi.getD (Value.vInt 0))).1 := rfl

theorem buildAssessment_bmi_findings (vitals : Vitals) (symptoms : List String)
    (age : Value) (demo : Int × List String) (lifestyle : Lifestyle) :
    (buildAssessment vitals symptoms age demo lifestyle).bmi_findings =
      (evaluate_bmi_risk (vitals.bmi.getD (Value.vInt 0))).2 := rfl

theorem buildAssessment_vitals_findings (vitals : Vitals) (symptoms : List String)
    (age : Value) (demo : Int × List String) (lifestyle : Lifestyle) :
    (buildAssessment vitals symptoms age demo lifestyle).vitals_findings =
      evaluate_critical_combinations vitals symptoms ++ (evaluate_vitals_risk vitals).2 := rfl

theorem buildAssessment_symptom_findings (vitals : Vitals) (symptoms : List String)
    (age : Value) (demo : Int × List String) (lifestyle : Lifestyle) :
    (buildAssessment vitals symptoms age demo lifestyle).symptom_findings =
      (evaluate_symptoms_risk symptoms).2 := rfl

theorem buildAssessment_requires_immediate (vitals : Vitals) (symptoms : List String)
    (age : Value) (demo : Int × List String) (lifestyle : Lifestyle) :
    (buildAssessment vitals symptoms age demo lifestyle).requires_immediate_attention =
      ((evaluate_critical_combinations vitals symptoms ++ (evaluate_vitals_risk vitals).2) ++
        (evaluate_symptoms_risk symptoms).2).any
        (fun finding => strContains finding "CRITICAL" || strContains finding "🔴") := rfl

/-! ## C3 -/

/-- C3: the total score returned by `calculate_total_risk_score` equals
the sum of the five domain sub-scores capped at 100, and the
classification boundaries are exact: the level is LOW iff total ≤ 30,
MODERATE iff 31 ≤ total ≤ 60, HIGH iff 61 ≤ total (so 30 → LOW,
31 → MODERATE, 60 → MODERATE, 61 → HIGH). -/
theorem c3_total_and_boundaries (v b s d l : Int) :
    (calculate_total_risk_score v b s d l).1 = min (v + b + s + d + l) 100 ∧
    ((calculate_total_risk_score v b s d l).2.1 = RiskLevel.low ↔
      (calculate_total_risk_score v b s d l).1 ≤ 30) ∧
    ((calculate_total_risk_score v b s d l).2.1 = RiskLevel.moderate ↔
      (31 ≤ (calculate_total_risk_score v b s d l).1 ∧
       (calculate_total_risk_score v b s d l).1 ≤ 60)) ∧
    ((calculate_total_risk_score v b s d l).2.1 = RiskLevel.high ↔
      61 ≤ (calculate_total_risk_score v b s d l).1) := by
  have h : calculate_total_risk_score v b s d l =
      (min (v + b + s + d + l) 100,
       (if min (v + b + s + d + l) 100 ≤ 30 then RiskLevel.low
        else if min (v + b + s + d + l) 100 ≤ 60 then RiskLevel.moderate
        else RiskLevel.high),
       { vitals_contribution := v, bmi_contribution := b, symptoms_contribution := s,
         demographics_contribution := d, lifestyle_contribution := l }) := rfl
  rw [h]
  refine ⟨rfl, ?_, ?_, ?_⟩ <;> dsimp only <;> split_ifs with h1 h2 <;> simp <;> omega

/-! ## C1 -/

/-- C1 counterexample: with the empty vitals mapping (so the "bmi" key
is absent), `assess_patient` reports a BMI contribution of 5 with an
Underweight finding — not 0 with an empty finding list as claimed —
because the absent key is defaulted to 0, which falls in the
BMI < 18.5 band. -/
theorem c1_counterexample :
    emptyVitals.bmi = none ∧
    (assess_patient emptyVitals [] (Value.vInt 45) "M" [] emptyLifestyle).toOption.map
        (fun a => (a.contributing_factors.bmi_contribution, a.bmi_findings)) =
      some (5, ["🟡 MODERATE: Underweight (BMI < 18.5)"]) :=
  ⟨rfl, by with_unfolding_all rfl⟩

/-- C1 (amended): a present but non-numeric "bmi" value contributes
nothing — `evaluate_bmi_risk` returns `(0, [])` and the assessment has
`bmi_contribution = 0` with no BMI findings; an absent "bmi" key,
however, is defaulted to 0 by `assess_patient`, which
`evaluate_bmi_risk` scores as Underweight: `bmi_contribution = 5` with
the Underweight finding. -/
theorem c1_bmi_amended
    (vitals₁ vitals₂ : Vitals) (v : Value) (symptoms : List String) (age : Value)
    (gender : String) (comorbidities : List String) (lifestyle : Lifestyle)
    (a₁ a₂ : RiskAssessment)
    (hv : vitals₁.bmi = some v) (hnum : pyFloat v = none)
    (h₁ : assess_patient vitals₁ symptoms age gender comorbidities lifestyle = Except.ok a₁)
    (hmiss : vitals₂.bmi = none)
    (h₂ : assess_patient vitals₂ symptoms age gender comorbidities lifestyle = Except.ok a₂) :
    evaluate_bmi_risk v = (0, []) ∧
    a₁.contributing_factors.bmi_contribution = 0 ∧ a₁.bmi_findings = [] ∧
    a₂.contributing_factors.bmi_contribution = 5 ∧
    a₂.bmi_findings = ["🟡 MODERATE: Underweight (BMI < 18.5)"] := by
  have hb : evaluate_bmi_risk v = (0, []) := by
    unfold evaluate_bmi_risk; rw [hnum]
  have h0 : evaluate_bmi_risk (Value.vInt 0) =
      (5, ["🟡 MODERATE: Underweight (BMI < 18.5)"]) := by with_unfolding_all rfl
  obtain ⟨demo₁, hd₁, rfl⟩ := assess_patient_ok_elim _ _ _ _ _ _ _ h₁
  obtain ⟨demo₂, hd₂, rfl⟩ := assess_patient_ok_elim _ _ _ _ _ _ _ h₂
  refine ⟨hb, ?_, ?_, ?_, ?_⟩
  · rw [buildAssessment_bmi_contribution, hv]; simp [hb]
  · rw [buildAssessment_bmi_findings, hv]; simp [hb]
  · rw [buildAssessment_bmi_contribution, hmiss]; simp [h0]
  · rw [buildAssessment_bmi_findings, hmiss]; simp [h0]

/-- Vitals mapping whose "bmi" value is the non-numeric string "abc". -/
def c1Vitals : Vitals := ⟨none, none, none, none, some (Value.vStr "abc")⟩

/-- C1 witness: the amended theorem applied at a vitals mapping with the
non-numeric BMI "abc" and at the empty vitals mapping. -/
theorem c1_bmi_amended_witness :
    evaluate_bmi_risk (Value.vStr "abc") = (0, []) ∧
    (buildAssessment c1Vitals [] (Value.vInt 45) (0, []) emptyLifestyle).contributing_factors.bmi_contribution = 0 ∧
    (buildAssessment c1Vitals [] (Value.vInt 45) (0, []) emptyLifestyle).bmi_findings = [] ∧
    (buildAssessment emptyVitals [] (Value.vInt 45) (0, []) emptyLifestyle).contributing_factors.bmi_contribution = 5 ∧
    (buildAssessment emptyVitals [] (Value.vInt 45) (0, []) emptyLifestyle).bmi_findings =
      ["🟡 MODERATE: Underweight (BMI < 18.5)"] :=
  c1_bmi_amended c1Vitals emptyVitals (Value.vStr "abc") [] (Value.vInt 45) "M" []
    emptyLifestyle _ _ rfl (by with_unfolding_all rfl) (by with_unfolding_all rfl) rfl
    (by with_unfolding_all rfl)

/-! ## C2 -/

/-- The vitals mapping of spec Scenario 2. -/
def scenario2_vitals : Vitals :=
  ⟨some (Value.vStr "180/110"), some (Value.vInt 88), some (Value.vInt 128),
   some (Value.vFloat (38.5 : Rat)), none⟩

/-- The symptom list of spec Scenario 2. -/
def scenario2_symptoms : List String := ["chest pain", "shortness of breath"]

/-- C2 counterexample: on Scenario 2 (BP "180/110", chest pain present)
the cardiac critical-combination alert is NOT among the vitals
findings: the detector requires systolic strictly above 180 (or
diastolic strictly above 120), and 180/110 meets neither. -/
theorem c2_counterexample :
    (assess_patient scenario2_vitals scenario2_symptoms (Value.vInt 58) "M"
        ["hypertension", "diabetes"] emptyLifestyle).toOption.map
      (fun a => a.vitals_findings.contains
        "🚨 CARDIAC ALERT: Hypertensive crisis with chest pain - IMMEDIATE EVALUATION") =
      some false := by
  with_unfolding_all rfl

/-- C2 (amended): on Scenario 2 the vitals sub-score is 45 (capped), the
symptom sub-score is 18 with the cardiac-event symptom finding present,
`requires_immediate_attention` is true and the level is HIGH — but the
critical-combination alert present among the vitals findings is the
pneumonia/sepsis (infection-risk) alert, not the cardiac alert, since
the BP 180/110 does not exceed the strict > 180/ > 120 thresholds. -/
theorem c2_scenario2_amended :
    (assess_patient scenario2_vitals scenario2_symptoms (Value.vInt 58) "M"
        ["hypertension", "diabetes"] emptyLifestyle).toOption.map
      (fun a => (a.contributing_factors.vitals_contribution,
                 a.contributing_factors.symptoms_contribution,
                 a.symptom_findings.contains "🔴 CRITICAL: Potential cardiac event symptoms detected",
                 a.vitals_findings.contains "🚨 INFECTION RISK: Hypoxemia with fever/cough - Possible pneumonia/sepsis",
                 a.requires_immediate_attention,
                 a.risk_level)) =
      some (45, 18, true, true, true, RiskLevel.high) := by
  with_unfolding_all rfl

/-! ## C4 -/

theorem bpScore_nonneg (ov : Option Value) : 0 ≤ (bpScore ov).1 := by
  unfold bpScore
  repeat' split
  all_goals norm_num

theorem spo2Score_nonneg (ov : Option Value) : 0 ≤ (spo2Score ov).1 := by
  unfold spo2Score
  repeat' split
  all_goals norm_num

theorem hrScore_nonneg (ov : Option Value) : 0 ≤ (hrScore ov).1 := by
  unfold hrScore
  repeat' split
  all_goals norm_num

theorem tempScore_nonneg (ov : Option Value) : 0 ≤ (tempScore ov).1 := by
  unfold tempScore
  repeat' split
  all_goals norm_num

theorem evaluate_vitals_risk_bounds (vitals : Vitals) :
    0 ≤ (evaluate_vitals_risk vitals).1 ∧ (evaluate_vitals_risk vitals).1 ≤ 45 := by
  have h1 := bpScore_nonneg vitals.bp
  have h2 := spo2Score_nonneg vitals.spo2
  have h3 := hrScore_nonneg vitals.hr
  have h4 := tempScore_nonneg vitals.temp
  simp only [evaluate_vitals_risk]
  exact ⟨le_min (by omega) (by norm_num), min_le_right _ _⟩

theorem symptomCheck_nonneg (sl triggers : List String) (k : Int) (f : String)
    (hk : 0 ≤ k) : 0 ≤ (symptomCheck sl triggers k f).1 := by
  unfold symptomCheck
  split <;> simp [hk]

theorem evaluate_symptoms_risk_bounds (symptoms : List String) :
    0 ≤ (evaluate_symptoms_risk symptoms).1 ∧ (evaluate_symptoms_risk symptoms).1 ≤ 40 := by
  unfold evaluate_symptoms_risk
  split
  · norm_num
  · simp only
    refine ⟨le_min ?_ (by norm_num), min_le_right _ _⟩
    refine add_nonneg (add_nonneg (add_nonneg (add_nonneg (add_nonneg ?_ ?_) ?_) ?_) ?_) ?_ <;>
      exact symptomCheck_nonneg _ _ _ _ (by norm_num)

theorem evaluate_lifestyle_risk_bounds (lifestyle : Lifestyle) :
    0 ≤ (evaluate_lifestyle_risk lifestyle).1 ∧ (evaluate_lifestyle_risk lifestyle).1 ≤ 20 := by
  simp only [evaluate_lifestyle_risk]
  refine ⟨le_min ?_ (by norm_num), min_le_right _ _⟩
  repeat' split
  all_goals norm_num

theorem high_risk_conditions_nonneg : ∀ p ∈ high_risk_conditions, 0 ≤ p.2 := by decide

theorem evalConditions_nonneg (cl : List String) (conds : List (String × Int))
    (h : ∀ p ∈ conds, 0 ≤ p.2) : 0 ≤ (evalConditions cl conds).1 := by
  induction conds with
  | nil => norm_num [evalConditions]
  | cons p rest ih =>
      have hp := h p (List.mem_cons_self p rest)
      have hr := ih (fun q hq => h q (List.mem_cons_of_mem _ hq))
      unfold evalConditions
      split
      · dsimp only; omega
      · exact hr

theorem ageScore_ok_bounds (age : Value) (r : Int × List String)
    (h : ageScore age = Except.ok r) : 0 ≤ r.1 ∧ r.1 ≤ 8 := by
  rcases age with a | s | q
  · unfold ageScore at h
    injection h with h
    subst h
    split_ifs <;> constructor <;> norm_num
  · exact Except.noConfusion h
  · unfold ageScore at h
    injection h with h
    subst h
    split_ifs <;> constructor <;> norm_num

theorem demographics_ok_bounds (age : Value) (gender : String)
    (comorbidities : List String) (ds : Int × List String)
    (h : evaluate_demographics_risk age gender comorbidities = Except.ok ds) :
    0 ≤ ds.1 ∧ ds.1 ≤ 30 := by
  unfold evaluate_demographics_risk at h
  cases ha : ageScore age with
  | error e => rw [ha] at h; exact Except.noConfusion h
  | ok r0 =>
      rw [ha] at h
      dsimp only at h
      injection h with h
      have hb := ageScore_ok_bounds age r0 ha
      have hc := evalConditions_nonneg (comorbidities.map String.toLower)
        high_risk_conditions high_risk_conditions_nonneg
      subst h
      exact ⟨le_min (by omega) (by norm_num), min_le_right _ _⟩

theorem evaluate_bmi_risk_bounds (v : Value) :
    0 ≤ (evaluate_bmi_risk v).1 ∧ (evaluate_bmi_risk v).1 ≤ 15 := by
  unfold evaluate_bmi_risk
  repeat' split
  all_goals constructor <;> norm_num

/-- C4: every domain sub-score is non-negative and within its cap
(vitals ≤ 45, symptoms ≤ 40, demographics ≤ 30, lifestyle ≤ 20, BMI
≤ 15 by its rule table), and the total score of any successful
assessment lies in [0, 100]. -/
theorem c4_domain_caps (vitals : Vitals) (bmi_val : Value) (symptoms : List String)
    (age : Value) (gender : String) (comorbidities : List String)
    (lifestyle : Lifestyle) (ds : Int × List String) (a : RiskAssessment)
    (hd : evaluate_demographics_risk age gender comorbidities = Except.ok ds)
    (ha : assess_patient vitals symptoms age gender comorbidities lifestyle = Except.ok a) :
    (0 ≤ (evaluate_vitals_risk vitals).1 ∧ (evaluate_vitals_risk vitals).1 ≤ 45) ∧
    (0 ≤ (evaluate_symptoms_risk symptoms).1 ∧ (evaluate_symptoms_risk symptoms).1 ≤ 40) ∧
    (0 ≤ ds.1 ∧ ds.1 ≤ 30) ∧
    (0 ≤ (evaluate_lifestyle_risk lifestyle).1 ∧ (evaluate_lifestyle_risk lifestyle).1 ≤ 20) ∧
    (0 ≤ (evaluate_bmi_risk bmi_val).1 ∧ (evaluate_bmi_risk bmi_val).1 ≤ 15) ∧
    (0 ≤ a.total_score ∧ a.total_score ≤ 100) := by
  obtain ⟨demo, hdemo, rfl⟩ := assess_patient_ok_elim _ _ _ _ _ _ _ ha
  refine ⟨evaluate_vitals_risk_bounds vitals, evaluate_symptoms_risk_bounds symptoms,
    demographics_ok_bounds _ _ _ _ hd, evaluate_lifestyle_risk_bounds lifestyle,
    evaluate_bmi_risk_bounds bmi_val, ?_⟩
  rw [buildAssessment_total_score]
  have h1 := evaluate_vitals_risk_bounds vitals
  have h2 := evaluate_bmi_risk_bounds (vitals.bmi.getD (Value.vInt 0))
  have h3 := evaluate_symptoms_risk_bounds symptoms
  have h4 := demographics_ok_bounds _ _ _ _ hdemo
  have h5 := evaluate_lifestyle_risk_bounds lifestyle
  exact ⟨le_min (by omega) (by norm_num), min_le_right _ _⟩

/-- C4 witness: the bounds at a concrete benign input. -/
theorem c4_domain_caps_witness :
    (0 ≤ (evaluate_vitals_risk emptyVitals).1 ∧ (evaluate_vitals_risk emptyVitals).1 ≤ 45) ∧
    (0 ≤ (evaluate_symptoms_risk []).1 ∧ (evaluate_symptoms_risk []).1 ≤ 40) ∧
    (0 ≤ ((0 : Int), ([] : List String)).1 ∧ ((0 : Int), ([] : List String)).1 ≤ 30) ∧
    (0 ≤ (evaluate_lifestyle_risk emptyLifestyle).1 ∧ (evaluate_lifestyle_risk emptyLifestyle).1 ≤ 20) ∧
    (0 ≤ (evaluate_bmi_risk (Value.vInt 22)).1 ∧ (evaluate_bmi_risk (Value.vInt 22)).1 ≤ 15) ∧
    (0 ≤ (buildAssessment emptyVitals [] (Value.vInt 30) (0, []) emptyLifestyle).total_score ∧
     (buildAssessment emptyVitals [] (Value.vInt 30) (0, []) emptyLifestyle).total_score ≤ 100) :=
  c4_domain_caps emptyVitals (Value.vInt 22) [] (Value.vInt 30) "M" [] emptyLifestyle
    (0, []) _ (by with_unfolding_all rfl) (by with_unfolding_all rfl)

/-! ## C6 -/

theorem contains_map_toLower_eq_false (symptoms : List String) (t : String)
    (h : ∀ s ∈ symptoms, s.toLower ≠ t) :
    (symptoms.map String.toLower).contains t = false := by
  cases hc : (symptoms.map String.toLower).contains t with
  | false => rfl
  | true =>
      obtain ⟨s, hs, heq⟩ := List.mem_map.mp (List.elem_iff.mp hc)
      exact absurd heq (h s hs)

theorem symptomCheck_no_match (sl : List String) (triggers : List String) (k : Int)
    (f : String) (h : ∀ t ∈ triggers, sl.contains t = false) :
    symptomCheck sl triggers k f = (0, []) := by
  unfold symptomCheck
  rw [if_neg]
  intro hc
  rw [List.any_eq_true] at hc
  obtain ⟨t, ht, hct⟩ := hc
  simp only [h t ht] at hct
  cases hct

/-- C6: a symptom rule fires only on an exact (lower-cased) match of a
full symptom string: whenever no symptom's lower-casing equals any
trigger phrase — e.g. "mild chest pain", which merely contains a
trigger as a substring — the symptom sub-score is 0 with no findings. -/
theorem c6_exact_match_only (symptoms : List String)
    (h : ∀ s ∈ symptoms, ∀ t ∈ symptom_triggers, s.toLower ≠ t) :
    evaluate_symptoms_risk symptoms = (0, []) := by
  have hc : ∀ t ∈ symptom_triggers, (symptoms.map String.toLower).contains t = false :=
    fun t ht => contains_map_toLower_eq_false symptoms t (fun s hs => h s hs t ht)
  have key : ∀ (L : List String), (∀ t ∈ L, t ∈ symptom_triggers) →
      ∀ (k : Int) (f : String), symptomCheck (symptoms.map String.toLower) L k f = (0, []) :=
    fun L hL k f => symptomCheck_no_match _ _ _ _ (fun t ht => hc t (hL t ht))
  unfold evaluate_symptoms_risk
  split
  · rfl
  · simp only [key ["chest pain", "shortness of breath"] (by decide),
        key ["severe headache", "confusion", "altered mental status"] (by decide),
        key ["difficulty breathing", "severe cough"] (by decide),
        key ["severe pain", "acute pain"] (by decide),
        key ["dizziness", "fainting", "syncope"] (by decide),
        key ["persistent vomiting", "vomiting blood"] (by decide)]
    rfl

/-- C6 witness: "mild chest pain" contains the trigger "chest pain" as a
substring but is not an exact match, so nothing fires. -/
theorem c6_exact_match_only_witness :
    evaluate_symptoms_risk ["mild chest pain"] = (0, []) :=
  c6_exact_match_only ["mild chest pain"] (by with_unfolding_all decide)

/-! ## C8 -/

/-- C8: `evaluate_vitals_risk` is total, and a malformed value causes
only that vital's check to be skipped: the result equals the result on
the same mapping with that key removed, so the remaining vitals are
still evaluated normally. -/
theorem c8_malformed_values_skipped (vitals : Vitals) (v : Value) :
    (vitals.bp = some v → parseBP v = none →
      evaluate_vitals_risk vitals =
        evaluate_vitals_risk ⟨none, vitals.spo2, vitals.hr, vitals.temp, vitals.bmi⟩) ∧
    (vitals.spo2 = some v → pyInt v = none →
      evaluate_vitals_risk vitals =
        evaluate_vitals_risk ⟨vitals.bp, none, vitals.hr, vitals.temp, vitals.bmi⟩) ∧
    (vitals.hr = some v → pyInt v = none →
      evaluate_vitals_risk vitals =
        evaluate_vitals_risk ⟨vitals.bp, vitals.spo2, none, vitals.temp, vitals.bmi⟩) ∧
    (vitals.temp = some v → pyFloat v = none →
      evaluate_vitals_risk vitals =
        evaluate_vitals_risk ⟨vitals.bp, vitals.spo2, vitals.hr, none, vitals.bmi⟩) := by
  refine ⟨?_, ?_, ?_, ?_⟩ <;> intro h hp <;>
    simp only [evaluate_vitals_risk, h, bpScore, spo2Score, hrScore, tempScore, hp]

/-- A vitals mapping with an unparsable blood pressure alongside normal
vitals. -/
def c8Vitals : Vitals :=
  ⟨some (Value.vStr "not-a-number"), some (Value.vInt 92), some (Value.vInt 70),
   some (Value.vFloat 37), none⟩

/-- C8 witness: the malformed BP "not-a-number" is skipped; the mapping
scores exactly like the same mapping without a BP entry (the SpO2 of 92
still contributes). -/
theorem c8_malformed_values_skipped_witness :
    c8Vitals.bp = some (Value.vStr "not-a-number") ∧
    parseBP (Value.vStr "not-a-number") = none ∧
    evaluate_vitals_risk c8Vitals =
      evaluate_vitals_risk ⟨none, c8Vitals.spo2, c8Vitals.hr, c8Vitals.temp, c8Vitals.bmi⟩ :=
  ⟨rfl, by with_unfolding_all rfl,
   (c8_malformed_values_skipped c8Vitals (Value.vStr "not-a-number")).1 rfl
     (by with_unfolding_all rfl)⟩

/-! ## C5 -/

/-- Vitals with SpO2 88 but no temperature key at all. -/
def c5CexVitals : Vitals := ⟨none, some (Value.vInt 88), none, none, none⟩

/-- C5 counterexample: SpO2 parses to 88 < 90 and "cough" is an element
of the symptom list, yet no pneumonia/sepsis alert is produced, because
the respiratory block also requires the "temp" key to be present. -/
theorem c5_counterexample :
    pyInt (Value.vInt 88) = some 88 ∧ (88 : Int) < 90 ∧
    (["cough"].map String.toLower).contains "cough" = true ∧
    c5CexVitals.temp = none ∧
    evaluate_critical_combinations c5CexVitals ["cough"] = [] :=
  ⟨rfl, by norm_num, by with_unfolding_all rfl, rfl, by with_unfolding_all rfl⟩

/-- C5 (amended): when the vitals mapping contains BOTH "spo2" parsing
below 90 AND a parseable "temp", and either the temperature exceeds
38.0 or "cough" (case-insensitively) is an element of the symptom
list, the pneumonia/sepsis alert is produced, and the assessment's
vitals findings are the critical alerts prepended to the vitals
evaluator's findings. -/
theorem c5_pneumonia_alert_amended (vitals : Vitals) (symptoms : List String)
    (v w : Value) (o : Int) (t : Rat) (age : Value) (gender : String)
    (comorbidities : List String) (lifestyle : Lifestyle) (a : RiskAssessment)
    (h1 : vitals.spo2 = some v) (h2 : pyInt v = some o) (h3 : o < 90)
    (h4 : vitals.temp = some w) (h5 : pyFloat w = some t)
    (h6 : 38.0 < t ∨ (symptoms.map String.toLower).contains "cough" = true)
    (ha : assess_patient vitals symptoms age gender comorbidities lifestyle = Except.ok a) :
    "🚨 INFECTION RISK: Hypoxemia with fever/cough - Possible pneumonia/sepsis" ∈
      evaluate_critical_combinations vitals symptoms ∧
    a.vitals_findings =
      evaluate_critical_combinations vitals symptoms ++ (evaluate_vitals_risk vitals).2 := by
  obtain ⟨demo, hd, rfl⟩ := assess_patient_ok_elim _ _ _ _ _ _ _ ha
  refine ⟨?_, buildAssessment_vitals_findings _ _ _ _ _⟩
  simp only [evaluate_critical_combinations, h1, h4, h2, h5]
  have hcond : o < 90 ∧ (38.0 < t ∨ (symptoms.map String.toLower).contains "cough" = true) :=
    ⟨h3, h6⟩
  rw [if_pos hcond]
  exact List.mem_append_right _ (List.mem_singleton.mpr rfl)

/-- Vitals of spec Scenario 3: SpO2 88, temperature 38.2. -/
def c5Vitals : Vitals :=
  ⟨none, some (Value.vInt 88), none, some (Value.vFloat (38.2 : Rat)), none⟩

/-- C5 witness: Scenario 3 (SpO2 88, temp 38.2, "cough") produces the
infection alert, prepended to the vitals findings. -/
theorem c5_pneumonia_alert_amended_witness :
    "🚨 INFECTION RISK: Hypoxemia with fever/cough - Possible pneumonia/sepsis" ∈
      evaluate_critical_combinations c5Vitals ["cough"] ∧
    (buildAssessment c5Vitals ["cough"] (Value.vInt 50) (0, []) emptyLifestyle).vitals_findings =
      evaluate_critical_combinations c5Vitals ["cough"] ++ (evaluate_vitals_risk c5Vitals).2 :=
  c5_pneumonia_alert_amended c5Vitals ["cough"] (Value.vInt 88) (Value.vFloat (38.2 : Rat))
    88 (38.2 : Rat) (Value.vInt 50) "M" [] emptyLifestyle _
    rfl rfl (by norm_num) rfl rfl (Or.inl (by with_unfolding_all decide))
    (by with_unfolding_all rfl)

/-! ## C7 -/

/-- C7: `generate_assessment` is total and always returns one of the two
result envelopes; in particular a string (non-numeric) age in the
patient data surfaces as the failure envelope carrying the comparison
error — no exception propagates past the entry point. -/
theorem c7_envelope_total (pd : PatientData) :
    ((∃ a d, generate_assessment pd = AssessmentResult.success a d) ∨
     (∃ e d, generate_assessment pd = AssessmentResult.failure e d)) ∧
    (∀ s, pd.age = some (Value.vStr s) →
      generate_assessment pd =
        AssessmentResult.failure "'>=' not supported between instances of 'str' and 'int'"
          "Assessment failed. Please consult physician directly.") := by
  constructor
  · unfold generate_assessment
    cases h : assess_patient (pd.vitals.getD emptyVitals) (pd.symptoms.getD [])
        (pd.age.getD (Value.vInt 50)) (pd.gender.getD "Unknown")
        (pd.medical_history.getD []) (pd.lifestyle.getD emptyLifestyle) with
    | ok a => exact Or.inl ⟨a, _, rfl⟩
    | error e => exact Or.inr ⟨e, _, rfl⟩
  · intro s hs
    unfold generate_assessment
    rw [hs]
    rfl

/-- Patient data whose age is the non-numeric string "sixty". -/
def c7Pd : PatientData := ⟨none, none, some (Value.vStr "sixty"), none, none, none⟩

/-- C7 witness: a string age yields the failure envelope. -/
theorem c7_envelope_total_witness :
    generate_assessment c7Pd =
      AssessmentResult.failure "'>=' not supported between instances of 'str' and 'int'"
        "Assessment failed. Please consult physician directly." :=
  (c7_envelope_total c7Pd).2 "sixty" rfl

/-! ## C9 -/

theorem contains_append_right_mono (l : List String) (x t : String)
    (h : l.contains t = true) : (l ++ [x]).contains t = true :=
  List.elem_iff.mpr (List.mem_append_left _ (List.elem_iff.mp h))

theorem symptomCheck_append_mono (sl : List String) (x : String) (triggers : List String)
    (k : Int) (f : String) (hk : 0 ≤ k) :
    (symptomCheck sl triggers k f).1 ≤ (symptomCheck (sl ++ [x]) triggers k f).1 := by
  unfold symptomCheck
  split_ifs with ha hb hb
  · exact le_rfl
  · exfalso
    apply hb
    rw [List.any_eq_true] at ha ⊢
    obtain ⟨t, ht, hct⟩ := ha
    exact ⟨t, ht, contains_append_right_mono sl x t hct⟩
  · exact hk
  · exact le_rfl

theorem evaluate_symptoms_risk_append_mono (symptoms : List String) (s : String) :
    (evaluate_symptoms_risk symptoms).1 ≤ (evaluate_symptoms_risk (symptoms ++ [s])).1 := by
  by_cases he : symptoms.isEmpty
  · have h0 : (evaluate_symptoms_risk symptoms).1 = 0 := by
      unfold evaluate_symptoms_risk; rw [if_pos he]
    have hb := (evaluate_symptoms_risk_bounds (symptoms ++ [s])).1
    omega
  · have he2 : ¬ (symptoms ++ [s]).isEmpty = true := by
      cases symptoms with
      | nil => exact absurd rfl he
      | cons y ys => simp
    unfold evaluate_symptoms_risk
    rw [if_neg he, if_neg he2]
    simp only [List.map_append, List.map_cons, List.map_nil]
    have m1 := symptomCheck_append_mono (symptoms.map String.toLower) s.toLower
      ["chest pain", "shortness of breath"] 18
      "🔴 CRITICAL: Potential cardiac event symptoms detected" (by norm_num)
    have m2 := symptomCheck_append_mono (symptoms.map String.toLower) s.toLower
      ["severe headache", "confusion", "altered mental status"] 15
      "🔴 CRITICAL: Possible neurological emergency" (by norm_num)
    have m3 := symptomCheck_append_mono (symptoms.map String.toLower) s.toLower
      ["difficulty breathing", "severe cough"] 12
      "🟠 HIGH: Respiratory distress signs" (by norm_num)
    have m4 := symptomCheck_append_mono (symptoms.map String.toLower) s.toLower
      ["severe pain", "acute pain"] 10
      "🟠 HIGH: Acute pain episode" (by norm_num)
    have m5 := symptomCheck_append_mono (symptoms.map String.toLower) s.toLower
      ["dizziness", "fainting", "syncope"] 10
      "🟠 HIGH: Hemodynamic instability risk" (by norm_num)
    have m6 := symptomCheck_append_mono (symptoms.map String.toLower) s.toLower
      ["persistent vomiting", "vomiting blood"] 8
      "🟡 MODERATE: GI distress with dehydration risk" (by norm_num)
    exact min_le_min (by omega) le_rfl

theorem evalConditions_append_mono (cl : List String) (x : String)
    (conds : List (String × Int)) (h : ∀ p ∈ conds, 0 ≤ p.2) :
    (evalConditions cl conds).1 ≤ (evalConditions (cl ++ [x]) conds).1 := by
  induction conds with
  | nil => simp [evalConditions]
  | cons p rest ih =>
      have hp := h p (List.mem_cons_self p rest)
      have hr := ih (fun q hq => h q (List.mem_cons_of_mem _ hq))
      simp only [evalConditions]
      split_ifs with ha hb hb
      · exact add_le_add_left hr _
      · exfalso
        apply hb
        rw [List.any_append]
        simp [ha]
      · exact hr.trans (le_add_of_nonneg_left hp)
      · exact hr

theorem demographics_append_mono (age : Value) (gender : String)
    (comorbidities : List String) (c : String) (d₁ d₂ : Int × List String)
    (h₁ : evaluate_demographics_risk age gender comorbidities = Except.ok d₁)
    (h₂ : evaluate_demographics_risk age gender (comorbidities ++ [c]) = Except.ok d₂) :
    d₁.1 ≤ d₂.1 := by
  unfold evaluate_demographics_risk at h₁ h₂
  cases ha : ageScore age with
  | error e => rw [ha] at h₁; exact Except.noConfusion h₁
  | ok r0 =>
      rw [ha] at h₁ h₂
      dsimp only at h₁ h₂
      injection h₁ with h₁
      injection h₂ with h₂
      subst h₁
      subst h₂
      have hm := evalConditions_append_mono (comorbidities.map String.toLower) c.toLower
        high_risk_conditions high_risk_conditions_nonneg
      simp only [List.map_append, List.map_cons, List.map_nil]
      exact min_le_min (by omega) le_rfl

/-- C9: the total score is monotone under risk factors — appending a
symptom to the symptom list, or a comorbidity to the medical history,
with everything else unchanged, never decreases the total score. -/
theorem c9_total_score_monotone (vitals : Vitals) (symptoms : List String) (age : Value)
    (gender : String) (comorbidities : List String) (lifestyle : Lifestyle)
    (s c : String) (a a₁ a₂ : RiskAssessment)
    (h : assess_patient vitals symptoms age gender comorbidities lifestyle = Except.ok a)
    (h₁ : assess_patient vitals (symptoms ++ [s]) age gender comorbidities lifestyle = Except.ok a₁)
    (h₂ : assess_patient vitals symptoms age gender (comorbidities ++ [c]) lifestyle = Except.ok a₂) :
    a.total_score ≤ a₁.total_score ∧ a.total_score ≤ a₂.total_score := by
  obtain ⟨demo, hd, rfl⟩ := assess_patient_ok_elim _ _ _ _ _ _ _ h
  obtain ⟨demo₁, hd₁, rfl⟩ := assess_patient_ok_elim _ _ _ _ _ _ _ h₁
  obtain ⟨demo₂, hd₂, rfl⟩ := assess_patient_ok_elim _ _ _ _ _ _ _ h₂
  rw [hd] at hd₁
  injection hd₁ with hd₁
  subst hd₁
  constructor
  · rw [buildAssessment_total_score, buildAssessment_total_score]
    have hm := evaluate_symptoms_risk_append_mono symptoms s
    exact min_le_min (by omega) le_rfl
  · rw [buildAssessment_total_score, buildAssessment_total_score]
    have hm := demographics_append_mono age gender comorbidities c demo demo₂ hd hd₂
    exact min_le_min (by omega) le_rfl

/-- C9 witness: appending "chest pain" (total 5 → 23) and appending
"diabetes" (total 5 → 11) both increase the total (the baseline 5 is
the Underweight contribution of the defaulted absent BMI). -/
theorem c9_total_score_monotone_witness :
    ((buildAssessment emptyVitals ["headache"] (Value.vInt 50) (0, []) emptyLifestyle).total_score ≤
      (buildAssessment emptyVitals ["headache", "chest pain"] (Value.vInt 50) (0, []) emptyLifestyle).total_score ∧
     (buildAssessment emptyVitals ["headache"] (Value.vInt 50) (0, []) emptyLifestyle).total_score ≤
      (buildAssessment emptyVitals ["headache"] (Value.vInt 50)
        (6, ["⚠️ Chronic condition: Diabetes"]) emptyLifestyle).total_score) ∧
    (buildAssessment emptyVitals ["headache"] (Value.vInt 50) (0, []) emptyLifestyle).total_score = 5 ∧
    (buildAssessment emptyVitals ["headache", "chest pain"] (Value.vInt 50) (0, []) emptyLifestyle).total_score = 23 ∧
    (buildAssessment emptyVitals ["headache"] (Value.vInt 50)
      (6, ["⚠️ Chronic condition: Diabetes"]) emptyLifestyle).total_score = 11 :=
  ⟨c9_total_score_monotone emptyVitals ["headache"] (Value.vInt 50) "M" [] emptyLifestyle
      "chest pain" "diabetes" _ _ _ (by with_unfolding_all rfl) (by with_unfolding_all rfl)
      (by with_unfolding_all rfl),
   by with_unfolding_all rfl, by with_unfolding_all rfl, by with_unfolding_all rfl⟩

/-! ## C10 -/

/-- C10: `requires_immediate_attention` is computed only from the vitals
and symptom finding lists: when no vitals finding and no symptom
finding contains "CRITICAL" or the 🔴 marker, the flag is false — no
matter what the BMI, demographic or lifestyle findings contain. -/
theorem c10_flag_only_vitals_symptoms (vitals : Vitals) (symptoms : List String)
    (age : Value) (gender : String) (comorbidities : List String)
    (lifestyle : Lifestyle) (a : RiskAssessment)
    (ha : assess_patient vitals symptoms age gender comorbidities lifestyle = Except.ok a)
    (hben : ∀ f ∈ a.vitals_findings ++ a.symptom_findings,
        strContains f "CRITICAL" = false ∧ strContains f "🔴" = false) :
    a.requires_immediate_attention = false := by
  obtain ⟨demo, hd, rfl⟩ := assess_patient_ok_elim _ _ _ _ _ _ _ ha
  rw [buildAssessment_vitals_findings, buildAssessment_symptom_findings] at hben
  rw [buildAssessment_requires_immediate]
  rw [List.any_eq_false]
  intro f hf
  have hb := hben f hf
  simp [hb.1, hb.2]

/-- Vitals whose only entry is a BMI of 42 (Class III obesity). -/
def c10Vitals : Vitals := ⟨none, none, none, none, some (Value.vFloat 42)⟩

/-- C10 witness: BMI 42 puts a CRITICAL finding in the BMI list and a
demographic finding is present, yet the flag stays false because the
vitals and symptom findings are clean. -/
theorem c10_flag_only_vitals_symptoms_witness :
    (buildAssessment c10Vitals ["headache"] (Value.vInt 45)
        (6, ["⚠️ Chronic condition: Diabetes"]) emptyLifestyle).requires_immediate_attention = false ∧
    (buildAssessment c10Vitals ["headache"] (Value.vInt 45)
        (6, ["⚠️ Chronic condition: Diabetes"]) emptyLifestyle).bmi_findings =
      ["🔴 CRITICAL: Class III Obesity (BMI >= 40)"] ∧
    (buildAssessment c10Vitals ["headache"] (Value.vInt 45)
        (6, ["⚠️ Chronic condition: Diabetes"]) emptyLifestyle).demographic_findings =
      ["⚠️ Chronic condition: Diabetes"] :=
  ⟨c10_flag_only_vitals_symptoms c10Vitals ["headache"] (Value.vInt 45) "F" ["diabetes"]
      emptyLifestyle _ (by with_unfolding_all rfl) (by with_unfolding_all decide),
   by with_unfolding_all rfl, by with_unfolding_all rfl⟩
